import Mathlib

/-!
Shallow embedding of the invoice (factura) controller of the
autoflow-backend repository (source file `src/unnamed/part_000`,
third concatenated module, lines 245-666).

The controller functions receive JavaScript values from the request body
and query string, validate them, and issue SQL statements against a
PostgreSQL store.  We embed:

* JavaScript values (`JSVal`) with their truthiness semantics;
* the `facturas` table as a list of typed rows (`Factura`) plus the
  `clientes` table used by the list endpoint's LEFT JOIN;
* each controller function as a pure function from its inputs and the
  database state to a response and a new database state, following the
  source line by line.
-/

namespace Autoflow

/-- A JavaScript value as seen by the controller: `undefined`, `null`,
booleans, numbers (modelled as rationals), strings, and `Date`-like
objects (which appear when a row's `fecha_emision` read back from the
driver is used as a fallback value in `updateFactura`). -/
inductive JSVal where
  | undef
  | null
  | bool (b : Bool)
  | num (q : Rat)
  | str (s : String)
  | date (y m d : Nat)
deriving DecidableEq, Repr

namespace JSVal

/-- JavaScript truthiness: `undefined`, `null`, `false`, `0`, and the
empty string are falsy; every other value (including `Date` objects,
which are objects and hence always truthy) is truthy. -/
def truthy : JSVal → Bool
  | .undef => false
  | .null => false
  | .bool b => b
  | .num q => q != 0
  | .str s => s != ""
  | .date _ _ _ => true

/-- The JavaScript expression `a || b`: `a` if truthy, else `b`. -/
def jsOr (a b : JSVal) : JSVal := if a.truthy then a else b

/-- The JavaScript pattern `v || null` used by `createFactura` when
building the INSERT parameter list. -/
def orNull (v : JSVal) : JSVal := jsOr v .null

end JSVal

/-- A calendar date (the `fecha_emision` DATE column). -/
structure Fecha where
  year : Nat
  month : Nat
  day : Nat
deriving DecidableEq, Repr

/-- A row of the `facturas` table, with the PostgreSQL column types:
`numero`, `descripcion`, `archivo` are nullable TEXT, `cliente_id` a
nullable integer reference, `importe` NUMERIC (modelled as `Rat`),
`estado` BOOLEAN, `fecha_emision` DATE. -/
structure Factura where
  id : Nat
  usuario_id : Nat
  cliente_id : Option Int
  fecha_emision : Fecha
  importe : Rat
  estado : Bool
  numero : Option String
  descripcion : Option String
  archivo : Option String
deriving DecidableEq, Repr

/-- A row of the `clientes` table (only the columns the invoice list
endpoint's LEFT JOIN reads). -/
structure Cliente where
  id : Int
  nombre : String
deriving DecidableEq, Repr

/-- The persistent state visible to the invoice controller. -/
structure DB where
  facturas : List Factura
  clientes : List Cliente
  nextId : Nat
deriving DecidableEq, Repr

/-- Split a character list at every occurrence of the separator, the
semantics of `String.splitOn` for a single-character separator. -/
def splitChar (c : Char) : List Char → List (List Char)
  | [] => [[]]
  | x :: xs =>
      match splitChar c xs with
      | [] => if x = c then [[], []] else [[x]]
      | y :: ys => if x = c then [] :: y :: ys else (x :: y) :: ys

/-- Strip leading and trailing whitespace, the semantics of the JS
`String.prototype.trim`. -/
def trimList (l : List Char) : List Char :=
  ((l.dropWhile Char.isWhitespace).reverse.dropWhile Char.isWhitespace).reverse

/-- JS `trim()` on a string. -/
def jsTrim (s : String) : String :=
  String.mk (trimList s.data)

/-- JS `toLowerCase()` (ASCII case folding). -/
def jsToLower (s : String) : String :=
  String.mk (s.data.map Char.toLower)

/-- The numeric value of a list of decimal digits. -/
def digitsVal (u : List Char) : Nat :=
  u.foldl (fun acc c => acc * 10 + (c.toNat - '0'.toNat)) 0

/-- JavaScript `parseInt` on a string: skip leading whitespace, read an
optional sign and then a maximal prefix of decimal digits; `none`
models `NaN` (no digits found). -/
def parseIntJS (s : String) : Option Int :=
  let (neg, cs) :=
    match trimList s.data with
    | '-' :: rest => (true, rest)
    | '+' :: rest => (false, rest)
    | cs => (false, cs)
  let digits := cs.takeWhile Char.isDigit
  if digits.isEmpty then none
  else
    let n := digitsVal digits
    some (if neg then -(n : Int) else (n : Int))

/-- `parseInt` applied to an optional query-string parameter:
`parseInt(undefined)` is `NaN`, modelled as `none`. -/
def parseIntQ (s : Option String) : Option Int :=
  match s with
  | none => none
  | some s => parseIntJS s

/-- The idiom `parseInt(x) || d` used for the `page` and `limit` query
parameters: `NaN` and `0` fall back to the default. -/
def parseIntOr (s : Option String) (d : Int) : Int :=
  match parseIntQ s with
  | none => d
  | some n => if n = 0 then d else n

/-- A decimal literal (optional sign, digits, optional fraction), as
accepted by PostgreSQL when coercing a bound text parameter to
NUMERIC. -/
def parseDecimal (s : String) : Option Rat :=
  let (neg, t) :=
    match s.data with
    | '-' :: rest => (true, rest)
    | '+' :: rest => (false, rest)
    | l => (false, l)
  let q? : Option Rat :=
    match splitChar '.' t with
    | [i] =>
        if i ≠ [] ∧ i.all Char.isDigit then some ((digitsVal i : Rat)) else none
    | [i, f] =>
        if (i ≠ [] ∨ f ≠ []) ∧ i.all Char.isDigit ∧ f.all Char.isDigit then
          some ((digitsVal i : Rat) + (digitsVal f : Rat) / ((10 : Rat) ^ f.length))
        else none
    | _ => none
  q?.map (fun q => if neg then -q else q)

/-- Coercion of a bound JS parameter into a nullable TEXT column.
`undefined` is serialized as NULL by the driver; values of other
runtime types are modelled as a coercion failure (surfacing as a
generic persistence error). -/
def decodeText : JSVal → Option (Option String)
  | .null => some none
  | .undef => some none
  | .str s => some (some s)
  | _ => none

/-- Coercion of a bound JS parameter into the BOOLEAN `estado` column
(NOT NULL): booleans pass through, the PostgreSQL boolean literals
`true`/`false` are accepted as text; anything else is a coercion or
constraint failure. -/
def decodeBool : JSVal → Option Bool
  | .bool b => some b
  | .str "true" => some true
  | .str "false" => some false
  | _ => none

/-- Coercion of a bound JS parameter into the NUMERIC `importe` column
(NOT NULL). -/
def decodeNumeric : JSVal → Option Rat
  | .num q => some q
  | .str s => parseDecimal s
  | _ => none

/-- Strict full-string integer parse, as PostgreSQL coerces text to an
integer column (no trailing garbage allowed). -/
def strictInt (s : String) : Option Int :=
  let (neg, cs) :=
    match s.data with
    | '-' :: rest => (true, rest)
    | '+' :: rest => (false, rest)
    | cs => (false, cs)
  if cs.isEmpty ∨ ¬ cs.all Char.isDigit then none
  else
    let n := cs.foldl (fun acc c => acc * 10 + (c.toNat - '0'.toNat)) 0
    some (if neg then -(n : Int) else (n : Int))

/-- Coercion of a bound JS parameter into the nullable integer
`cliente_id` column. -/
def decodeIntNullable : JSVal → Option (Option Int)
  | .null => some none
  | .undef => some none
  | .num q => if q.den = 1 then some (some q.num) else none
  | .str s => (strictInt s).map some
  | _ => none

/-- Coercion of a bound JS parameter into the DATE `fecha_emision`
column (NOT NULL): ISO `YYYY-MM-DD` text, or a JS `Date` object. -/
def decodeDate : JSVal → Option Fecha
  | .str s =>
      (match splitChar '-' s.data with
       | [y, m, d] =>
           if y.all Char.isDigit ∧ y ≠ [] ∧
              m.all Char.isDigit ∧ m ≠ [] ∧
              d.all Char.isDigit ∧ d ≠ [] then
             let mv := digitsVal m
             let dv := digitsVal d
             if 1 ≤ mv ∧ mv ≤ 12 ∧ 1 ≤ dv ∧ dv ≤ 31 then
               some ⟨digitsVal y, mv, dv⟩
             else none
           else none
       | _ => none)
  | .date y m d => some ⟨y, m, d⟩
  | _ => none

/-- Errors raised by the persistence layer.  `uniqueNumero` is the
PostgreSQL unique-constraint violation with `code = "23505"` and
`constraint = "facturas_numero_key"`, the only error `createFactura`
distinguishes. -/
inductive PgError where
  | uniqueNumero
  | other
deriving DecidableEq, Repr

/-- The INSERT into `facturas`: the unique constraint
`facturas_numero_key` rejects a non-null `numero` equal to an existing
row's `numero` (SQL UNIQUE ignores NULLs); there is no pre-insert
check, the violation is raised by the store itself and the state is
left unchanged.  On success the row receives the server-assigned id. -/
def insertFactura (db : DB) (usuario_id : Nat) (cliente_id : Option Int)
    (fecha : Fecha) (importe : Rat) (estado : Bool)
    (numero descripcion archivo : Option String) :
    Except PgError (Factura × DB) :=
  let collision :=
    match numero with
    | some n => db.facturas.any (fun f => f.numero = some n)
    | none => false
  if collision then .error .uniqueNumero
  else
    let row : Factura :=
      { id := db.nextId, usuario_id := usuario_id, cliente_id := cliente_id
        fecha_emision := fecha, importe := importe, estado := estado
        numero := numero, descripcion := descripcion, archivo := archivo }
    .ok (row, { db with facturas := db.facturas ++ [row], nextId := db.nextId + 1 })

/-- The request body of `createFactura`: the six fields destructured
from `req.body`, each an arbitrary JS value (`undefined` when the key
is absent). -/
structure CreateBody where
  cliente_id : JSVal
  fecha_emision : JSVal
  importe : JSVal
  estado : JSVal
  numero : JSVal
  descripcion : JSVal
deriving DecidableEq, Repr

/-- The responses `createFactura` can send. -/
inductive CreateRes where
  | badRequest (msg : String)
  | serverError
  | created (factura : Factura)
deriving DecidableEq, Repr

/-- The `createFactura` controller (source lines 250-295):
`archivo = req.file ? req.file.filename : null`; the validation guard
`!fecha_emision || !importe || estado === undefined || !cliente_id`
returns 400; the INSERT applies `numero || null`, `descripcion || null`,
`archivo || null`; a `23505` violation of `facturas_numero_key` is
translated to a 400 conflict message, any other failure to a 500.
`createFacturaValidated` is the part of the controller behind the
validation guard: bind-time coercion of the eight INSERT parameters,
the insert itself, and the translation of its outcome. -/
def createFacturaValidated (uid : Nat) (body : CreateBody)
    (file : Option String) (db : DB) : CreateRes × DB :=
  let archivo : JSVal := match file with | some f => .str f | none => .null
  let params? : Option (Option Int × Fecha × Rat × Bool ×
      Option String × Option String × Option String) := do
    let ci ← decodeIntNullable body.cliente_id
    let fe ← decodeDate body.fecha_emision
    let im ← decodeNumeric body.importe
    let es ← decodeBool body.estado
    let nu ← decodeText body.numero.orNull
    let de ← decodeText body.descripcion.orNull
    let ar ← decodeText archivo.orNull
    pure (ci, fe, im, es, nu, de, ar)
  match params? with
  | none => (.serverError, db)
  | some (ci, fe, im, es, nu, de, ar) =>
      match insertFactura db uid ci fe im es nu de ar with
      | .ok (row, db') => (.created row, db')
      | .error .uniqueNumero =>
          (.badRequest "Ya existe una factura con ese número.", db)
      | .error .other => (.serverError, db)

def createFactura (uid : Nat) (body : CreateBody) (file : Option String)
    (db : DB) : CreateRes × DB :=
  if !body.fecha_emision.truthy || !body.importe.truthy ||
     body.estado == .undef || !body.cliente_id.truthy then
    (.badRequest "Fecha de emisión, importe, cliente y estado son obligatorios", db)
  else
    createFacturaValidated uid body file db

/-- Remove every whitespace character (the JS `search.replace(/\s/g, "")`
applied when building the search pattern). -/
def removeWS (s : String) : String :=
  String.mk (s.data.filter (fun c => !c.isWhitespace))

/-- `REPLACE(LOWER(x), ' ', '')`: the SQL normalization applied to the
`numero` and `descripcion` columns before matching — case folding and
removal of every space character (only `' '`, not all whitespace). -/
def sqlNorm (s : String) : String :=
  String.mk ((s.data.map Char.toLower).filter (fun c => c != ' '))

/-- Substring containment, the semantics of `x LIKE '%p%'` for a
pattern `p` containing no LIKE metacharacters. -/
def substrB (p s : String) : Bool :=
  decide (p.data <:+: s.data)

/-- Left-pad a numeral with zeros to the given width. -/
def padNum (w : Nat) (n : Nat) : String :=
  let s := toString n
  String.mk (List.replicate (w - s.length) '0') ++ s

/-- `TO_CHAR(fecha_emision, 'DD/MM/YYYY')`. -/
def fechaDDMMYYYY (f : Fecha) : String :=
  padNum 2 f.day ++ "/" ++ padNum 2 f.month ++ "/" ++ padNum 4 f.year

/-- The three-way OR search predicate of the list query (source lines
313-322): pattern match against normalized `numero`, normalized
`descripcion`, and the issue date rendered as `DD/MM/YYYY`; a NULL
column never matches. -/
def matchesSearch (pattern : String) (f : Factura) : Bool :=
  (match f.numero with
   | some n => substrB pattern (sqlNorm n)
   | none => false) ||
  (match f.descripcion with
   | some d => substrB pattern (sqlNorm d)
   | none => false) ||
  substrB pattern (fechaDDMMYYYY f.fecha_emision)

/-- Lexicographic order on dates, as `ORDER BY fecha_emision`. -/
def fechaLe (a b : Fecha) : Bool :=
  decide (a.year < b.year ∨ (a.year = b.year ∧
    (a.month < b.month ∨ (a.month = b.month ∧ a.day ≤ b.day))))

/-- Order on a nullable column with NULLs sorted last (ascending). -/
def optLe {α : Type} (le : α → α → Bool) : Option α → Option α → Bool
  | none, none => true
  | none, some _ => false
  | some _, none => true
  | some a, some b => le a b

/-- The comparison used by `ORDER BY ${sortField}` for each column of
the `facturas` table; an unknown column name makes the interpolated SQL
fail, surfacing as a 500. -/
def fieldLe (field : String) : Option (Factura → Factura → Bool) :=
  match field with
  | "fecha_emision" => some (fun a b => fechaLe a.fecha_emision b.fecha_emision)
  | "importe" => some (fun a b => decide (a.importe ≤ b.importe))
  | "id" => some (fun a b => decide (a.id ≤ b.id))
  | "usuario_id" => some (fun a b => decide (a.usuario_id ≤ b.usuario_id))
  | "cliente_id" => some (fun a b =>
      optLe (fun x y => decide (x ≤ y)) a.cliente_id b.cliente_id)
  | "estado" => some (fun a b => !a.estado || b.estado)
  | "numero" => some (fun a b =>
      optLe (fun x y => decide (x ≤ y)) a.numero b.numero)
  | "descripcion" => some (fun a b =>
      optLe (fun x y => decide (x ≤ y)) a.descripcion b.descripcion)
  | "archivo" => some (fun a b =>
      optLe (fun x y => decide (x ≤ y)) a.archivo b.archivo)
  | _ => none

/-- The query string of the list endpoint: each parameter is a string
when supplied and absent (`undefined`) otherwise. -/
structure ListQuery where
  page : Option String
  limit : Option String
  sortField : Option String
  sortOrder : Option String
  search : Option String
deriving DecidableEq, Repr

/-- A row of the list response: the invoice joined with the client's
display name and decorated with the derived attachment URL. -/
structure FacturaOut where
  factura : Factura
  cliente_nombre : Option String
  archivo_url : Option String
deriving DecidableEq, Repr

/-- The responses of the list endpoint. -/
inductive ListRes where
  | ok (facturas : List FacturaOut) (total : Nat)
  | serverError
deriving DecidableEq, Repr

/-- The rows of a list response (empty on error). -/
def ListRes.rows : ListRes → List FacturaOut
  | .ok fs _ => fs
  | .serverError => []

/-- The `getFacturasByUser` controller (source lines 297-360):
`page = parseInt(...) || 1`, `limit = parseInt(...) || 5`,
`offset = (page-1)*limit`; `sortField` defaults to `fecha_emision`,
order is ASC exactly when `sortOrder === "1"`; the search string is
lower-cased and trimmed, the pattern strips all whitespace; the WHERE
clause is the ownership test AND (when the search string is non-empty)
the three-way OR of `matchesSearch`; the total count is a separate
query counting all of the user's invoices with no search filter. -/
def getFacturasByUser (uid : Nat) (q : ListQuery) (baseUrl : String)
    (db : DB) : ListRes :=
  let page := parseIntOr q.page 1
  let limit := parseIntOr q.limit 5
  let offset := (page - 1) * limit
  let sortField :=
    match q.sortField with
    | some s => if s = "" then "fecha_emision" else s
    | none => "fecha_emision"
  let asc := q.sortOrder == some "1"
  let search := (match q.search with | some s => jsTrim (jsToLower s) | none => "")
  let pattern := removeWS search
  let rows := db.facturas.filter
    (fun f => f.usuario_id == uid && (search == "" || matchesSearch pattern f))
  match fieldLe sortField with
  | none => .serverError
  | some le =>
      if limit < 0 ∨ offset < 0 then .serverError
      else
        let sorted := List.insertionSort
          (fun a b => (if asc then le a b else le b a) = true) rows
        let pageRows := (sorted.drop offset.toNat).take limit.toNat
        let out := pageRows.map (fun f =>
          { factura := f
            cliente_nombre := f.cliente_id.bind (fun ci =>
              (db.clientes.find? (fun c => c.id == ci)).map Cliente.nombre)
            archivo_url := f.archivo.map (fun a =>
              baseUrl ++ "/" ++ toString f.usuario_id ++ "/" ++ a) })
        let total := (db.facturas.filter (fun f => f.usuario_id == uid)).length
        .ok out total

/-- A nullable TEXT column read back from the driver as a JS value. -/
def encodeOptStr : Option String → JSVal
  | some s => .str s
  | none => .null

/-- A nullable integer column read back from the driver as a JS value. -/
def encodeOptInt : Option Int → JSVal
  | some i => .num (i : Rat)
  | none => .null

/-- A DATE column read back from the driver as a JS `Date` object. -/
def encodeFecha (f : Fecha) : JSVal :=
  .date f.year f.month f.day

/-- The request body of `updateFactura`: same six fields as create. -/
structure UpdateBody where
  cliente_id : JSVal
  fecha_emision : JSVal
  importe : JSVal
  estado : JSVal
  numero : JSVal
  descripcion : JSVal
deriving DecidableEq, Repr

/-- The seven bound parameters of the UPDATE statement. -/
structure UpdateParams where
  cliente_id : JSVal
  fecha_emision : JSVal
  importe : JSVal
  estado : JSVal
  numero : JSVal
  descripcion : JSVal
  archivo : JSVal
deriving DecidableEq, Repr

/-- The parameter vector built by `updateFactura` (source lines
402-423 and 438-450): `cliente_id`, `fecha_emision`, `importe` use the
JS `||` fallback to the previous row's value (truthy-wins), while
`estado`, `numero`, `descripcion` use `!== undefined` (defined-wins);
`archivoActual` is the uploaded file's name when a file accompanies the
request (the old file's deletion is best-effort and only logged),
otherwise the previous `archivo`, and is passed as `archivoActual ||
null`. -/
def updateParams (body : UpdateBody) (prev : Factura) (file : Option String) :
    UpdateParams :=
  let archivoActual : JSVal :=
    match file with
    | some f => .str f
    | none => encodeOptStr prev.archivo
  { cliente_id := JSVal.jsOr body.cliente_id (encodeOptInt prev.cliente_id)
    fecha_emision := JSVal.jsOr body.fecha_emision (encodeFecha prev.fecha_emision)
    importe := JSVal.jsOr body.importe (.num prev.importe)
    estado := if body.estado == .undef then .bool prev.estado else body.estado
    numero := if body.numero == .undef then encodeOptStr prev.numero else body.numero
    descripcion :=
      if body.descripcion == .undef then encodeOptStr prev.descripcion
      else body.descripcion
    archivo := archivoActual.orNull }

/-- The responses of `updateFactura`. -/
inductive UpdateRes where
  | notFound
  | serverError
  | updated (factura : Factura)
deriving DecidableEq, Repr

/-- The `updateFactura` controller (source lines 383-461): fetch the
row scoped by id AND owner (404 if absent), build the parameter vector
with `updateParams`, coerce each parameter to its column type, and run
the UPDATE.  A unique-constraint violation on `numero` against another
row is not specially handled here and surfaces as a 500; any coercion
failure likewise. -/
def updateFactura (uid : Nat) (id : Nat) (body : UpdateBody)
    (file : Option String) (db : DB) : UpdateRes × DB :=
  match db.facturas.find? (fun f => f.id == id && f.usuario_id == uid) with
  | none => (.notFound, db)
  | some prev =>
      let p := updateParams body prev file
      let cols? : Option (Option Int × Fecha × Rat × Bool ×
          Option String × Option String × Option String) := do
        let ci ← decodeIntNullable p.cliente_id
        let fe ← decodeDate p.fecha_emision
        let im ← decodeNumeric p.importe
        let es ← decodeBool p.estado
        let nu ← decodeText p.numero
        let de ← decodeText p.descripcion
        let ar ← decodeText p.archivo
        pure (ci, fe, im, es, nu, de, ar)
      match cols? with
      | none => (.serverError, db)
      | some (ci, fe, im, es, nu, de, ar) =>
          let collision :=
            match nu with
            | some n => db.facturas.any (fun f => f.id ≠ prev.id ∧ f.numero = some n)
            | none => false
          if collision then (.serverError, db)
          else
            let row' : Factura :=
              { prev with cliente_id := ci, fecha_emision := fe, importe := im
                          estado := es, numero := nu, descripcion := de
                          archivo := ar }
            (.updated row',
             { db with facturas := db.facturas.map (fun f =>
                 if f.id == id && f.usuario_id == uid then row' else f) })

/-- The responses of `deleteArchivoFactura` (the clear-attachment
endpoint). -/
inductive ClearRes where
  | notFound
  | badRequest
  | serverError
  | cleared
deriving DecidableEq, Repr

/-- The `deleteArchivoFactura` controller (source lines 510-561): fetch
scoped by id AND owner (404); `!factura.archivo` (null or empty) is a
400 with no state change; then `fs.unlink` runs — modelled by the
`fsOk` flag — and a filesystem failure is a 500 issued before the
database is touched; only on unlink success is `archivo` set to NULL
for the row. -/
def deleteArchivoFactura (uid : Nat) (id : Nat) (fsOk : Bool) (db : DB) :
    ClearRes × DB :=
  match db.facturas.find? (fun f => f.id == id && f.usuario_id == uid) with
  | none => (.notFound, db)
  | some f =>
      if (match f.archivo with | none => true | some s => s == "") then
        (.badRequest, db)
      else if !fsOk then (.serverError, db)
      else
        (.cleared,
         { db with facturas := db.facturas.map (fun g =>
             if g.id == id && g.usuario_id == uid then { g with archivo := none }
             else g) })

/-- One entry of the per-month aggregation of the yearly summary. -/
structure MesRow where
  mes : String
  total : Nat
  pagadas : Nat
  noPagadas : Nat
  totalImporte : Rat
deriving DecidableEq, Repr

/-- The body of a successful yearly-summary response. -/
structure ResumenOut where
  year : Int
  totalFacturas : Nat
  pagadas : Nat
  noPagadas : Nat
  totalImporte : Rat
  importePagadas : Rat
  importeNoPagadas : Rat
  promedioImporte : Rat
  promedioPagadas : Rat
  promedioNoPagadas : Rat
  mensual : List MesRow
deriving DecidableEq, Repr

/-- The responses of `getResumenFacturasPorYear`. -/
inductive ResumenRes where
  | invalidYear
  | ok (r : ResumenOut)
deriving DecidableEq, Repr

/-- The floor of a rational, computed by floor division of the
numerator by the denominator. -/
def ratFloor (q : Rat) : Int :=
  Int.fdiv q.num (q.den : Int)

/-- PostgreSQL `ROUND(x, 2)`: round half away from zero at two decimal
places. -/
def round2 (q : Rat) : Rat :=
  let n : Int :=
    if 0 ≤ q then ratFloor (q * 100 + 1/2) else -(ratFloor (-(q * 100) + 1/2))
  (n : Rat) / 100

/-- `ROUND(AVG(importe) FILTER (...), 2)`: NULL (`none`) on an empty
group. -/
def avgRound2 (l : List Rat) : Option Rat :=
  match l with
  | [] => none
  | _ => some (round2 (l.sum / (l.length : Rat)))

/-- The month labels `"01"`..`"12"` the controller zero-fills over. -/
def mesesList : List String :=
  ["01", "02", "03", "04", "05", "06", "07", "08", "09", "10", "11", "12"]

/-- The `getResumenFacturasPorYear` controller (source lines 563-656):
`year = parseInt(req.query.year)` and `!year || isNaN(year)` is a 400;
otherwise both aggregate queries are scoped to the owner and the
calendar year.  The GROUP BY month query produces a row exactly for
each month with at least one invoice, and the final map over
`mesesList` zero-fills the missing months; each `promedio` field
applies `parseFloat(x || 0)`, turning a NULL average into 0. -/
def getResumenFacturasPorYear (uid : Nat) (yearRaw : Option String)
    (db : DB) : ResumenRes :=
  match parseIntQ yearRaw with
  | none => .invalidYear
  | some y =>
      if y = 0 then .invalidYear
      else
        let rows := db.facturas.filter (fun f =>
          f.usuario_id == uid && ((f.fecha_emision.year : Int) == y))
        let pagRows := rows.filter (fun f => f.estado)
        let noPagRows := rows.filter (fun f => !f.estado)
        let nullToZero : Option Rat → Rat := fun o =>
          match o with
          | some q => q
          | none => 0
        .ok
          { year := y
            totalFacturas := rows.length
            pagadas := pagRows.length
            noPagadas := noPagRows.length
            totalImporte := (rows.map Factura.importe).sum
            importePagadas := (pagRows.map Factura.importe).sum
            importeNoPagadas := (noPagRows.map Factura.importe).sum
            promedioImporte := nullToZero (avgRound2 (rows.map Factura.importe))
            promedioPagadas := nullToZero (avgRound2 (pagRows.map Factura.importe))
            promedioNoPagadas := nullToZero (avgRound2 (noPagRows.map Factura.importe))
            mensual := mesesList.map (fun mes =>
              let sub := rows.filter (fun f => padNum 2 f.fecha_emision.month == mes)
              { mes := mes
                total := sub.length
                pagadas := (sub.filter (fun f => f.estado)).length
                noPagadas := (sub.filter (fun f => !f.estado)).length
                totalImporte := (sub.map Factura.importe).sum }) }

/-! ## Theorems -/

/-- The post-validation part of create never produces the
missing-fields 400 response: its failures are the conflict message or
a generic 500. -/
lemma createFacturaValidated_ne_validation (uid : Nat) (body : CreateBody)
    (file : Option String) (db : DB) :
    (createFacturaValidated uid body file db).1 ≠
      .badRequest "Fecha de emisión, importe, cliente y estado son obligatorios" := by
  unfold createFacturaValidated
  dsimp only
  split
  · simp
  · split
    · simp
    · intro h
      simp only [CreateRes.badRequest.injEq] at h
      exact absurd h (by decide)
    · simp

/-- **C1** (amended): `createFactura` answers the missing-fields 400
exactly when `fecha_emision`, `importe` or `cliente_id` is falsy
(absent, empty string, or zero) or `estado` is `undefined`; in
particular `estado = false` together with truthy values for the other
three required fields passes validation. -/
theorem createFactura_validation_characterization
    (uid : Nat) (body : CreateBody) (file : Option String) (db : DB) :
    (createFactura uid body file db).1 =
        .badRequest "Fecha de emisión, importe, cliente y estado son obligatorios" ↔
      (body.fecha_emision.truthy = false ∨ body.importe.truthy = false ∨
       body.estado = .undef ∨ body.cliente_id.truthy = false) := by
  by_cases hfe : body.fecha_emision.truthy <;>
    by_cases him : body.importe.truthy <;>
      by_cases hes : body.estado = JSVal.undef <;>
        by_cases hci : body.cliente_id.truthy <;>
          simp [createFactura, hfe, him, hes, hci,
            createFacturaValidated_ne_validation]

/-- **C1** witness: with `estado = false` and the three required
fields truthy, the create request passes validation (here: it
succeeds). -/
theorem createFactura_validation_characterization_witness :
    (createFactura 1
        { cliente_id := .num 5, fecha_emision := .str "2024-03-01",
          importe := .num 100, estado := .bool false,
          numero := .undef, descripcion := .undef } none
        { facturas := [], clientes := [], nextId := 1 }).1 ≠
      CreateRes.badRequest
        "Fecha de emisión, importe, cliente y estado son obligatorios" := by
  intro h
  have hiff := (createFactura_validation_characterization 1
    { cliente_id := .num 5, fecha_emision := .str "2024-03-01",
      importe := .num 100, estado := .bool false,
      numero := .undef, descripcion := .undef } none
    { facturas := [], clientes := [], nextId := 1 }).mp h
  exact absurd hiff (by decide)

/-- **C1** counterexample: a request whose fields are all present
(defined) — `estado = false`, `importe = 0` — is rejected by the
validation guard, although the claim says it succeeds validation. -/
theorem createFactura_zeroAmount_failsValidation :
    (createFactura 1
        { cliente_id := .num 5, fecha_emision := .str "2024-03-01",
          importe := .num 0, estado := .bool false,
          numero := .str "INV-1", descripcion := .str "d" } none
        { facturas := [], clientes := [], nextId := 1 }).1 =
      CreateRes.badRequest
        "Fecha de emisión, importe, cliente y estado son obligatorios" := by
  decide

/-- **C2**: the per-field precedence of the UPDATE parameter vector:
`estado`, `numero`, `descripcion` take the supplied value whenever it
is defined (falsy values included) and fall back to the stored value
only on `undefined`; `cliente_id`, `fecha_emision`, `importe` take the
supplied value only when truthy; in particular a supplied amount of
`0` is ignored and the stored amount is kept. -/
theorem updateParams_field_precedence (body : UpdateBody) (prev : Factura)
    (file : Option String) :
    (body.estado ≠ .undef →
      (updateParams body prev file).estado = body.estado) ∧
    (body.estado = .undef →
      (updateParams body prev file).estado = .bool prev.estado) ∧
    (body.numero ≠ .undef →
      (updateParams body prev file).numero = body.numero) ∧
    (body.numero = .undef →
      (updateParams body prev file).numero = encodeOptStr prev.numero) ∧
    (body.descripcion ≠ .undef →
      (updateParams body prev file).descripcion = body.descripcion) ∧
    (body.descripcion = .undef →
      (updateParams body prev file).descripcion = encodeOptStr prev.descripcion) ∧
    (body.importe.truthy = true →
      (updateParams body prev file).importe = body.importe) ∧
    (body.importe.truthy = false →
      (updateParams body prev file).importe = .num prev.importe) ∧
    (body.fecha_emision.truthy = true →
      (updateParams body prev file).fecha_emision = body.fecha_emision) ∧
    (body.fecha_emision.truthy = false →
      (updateParams body prev file).fecha_emision = encodeFecha prev.fecha_emision) ∧
    (body.cliente_id.truthy = true →
      (updateParams body prev file).cliente_id = body.cliente_id) ∧
    (body.cliente_id.truthy = false →
      (updateParams body prev file).cliente_id = encodeOptInt prev.cliente_id) ∧
    (body.importe = .num 0 →
      (updateParams body prev file).importe = .num prev.importe) := by
  refine ⟨?_, ?_, ?_, ?_, ?_, ?_, ?_, ?_, ?_, ?_, ?_, ?_, ?_⟩ <;> intro h <;>
    first
      | (simp [updateParams, JSVal.jsOr, h]; done)
      | simp [updateParams, JSVal.jsOr, h, JSVal.truthy]

/-- **C2** witness: updating a stored invoice (amount 100, status
true, number "INV-1") with `{estado: false, importe: 0, numero: "",
descripcion: undefined}` persists `estado = false` and `numero = ""`
but keeps the amount 100. -/
theorem updateParams_field_precedence_witness :
    (updateParams
        { cliente_id := .undef, fecha_emision := .undef, importe := .num 0,
          estado := .bool false, numero := .str "", descripcion := .undef }
        { id := 1, usuario_id := 1, cliente_id := some 5,
          fecha_emision := ⟨2024, 3, 1⟩, importe := 100, estado := true,
          numero := some "INV-1", descripcion := none, archivo := none }
        none).estado = JSVal.bool false ∧
    (updateParams
        { cliente_id := .undef, fecha_emision := .undef, importe := .num 0,
          estado := .bool false, numero := .str "", descripcion := .undef }
        { id := 1, usuario_id := 1, cliente_id := some 5,
          fecha_emision := ⟨2024, 3, 1⟩, importe := 100, estado := true,
          numero := some "INV-1", descripcion := none, archivo := none }
        none).numero = JSVal.str "" ∧
    (updateParams
        { cliente_id := .undef, fecha_emision := .undef, importe := .num 0,
          estado := .bool false, numero := .str "", descripcion := .undef }
        { id := 1, usuario_id := 1, cliente_id := some 5,
          fecha_emision := ⟨2024, 3, 1⟩, importe := 100, estado := true,
          numero := some "INV-1", descripcion := none, archivo := none }
        none).importe = JSVal.num 100 := by
  have h := updateParams_field_precedence
    { cliente_id := .undef, fecha_emision := .undef, importe := .num 0,
      estado := .bool false, numero := .str "", descripcion := .undef }
    { id := 1, usuario_id := 1, cliente_id := some 5,
      fecha_emision := ⟨2024, 3, 1⟩, importe := 100, estado := true,
      numero := some "INV-1", descripcion := none, archivo := none }
    none
  exact ⟨h.1 (by decide), h.2.2.1 (by decide),
    h.2.2.2.2.2.2.2.2.2.2.2.2 (by decide)⟩

/-- **C3**: when the create request passes validation, its parameters
coerce, and its `numero` coerces to a non-null value already carried by
some stored invoice, the insert's uniqueness violation is surfaced as
the 400 conflict response and the database — the original invoice
included — is left exactly as it was. -/
theorem createFactura_duplicate_numero_conflict
    (uid : Nat) (body : CreateBody) (file : Option String) (db : DB)
    (n : String) (f0 : Factura)
    (hval : (!body.fecha_emision.truthy || !body.importe.truthy ||
             body.estado == JSVal.undef || !body.cliente_id.truthy) = false)
    (hci : ∃ ci, decodeIntNullable body.cliente_id = some ci)
    (hfe : ∃ fe, decodeDate body.fecha_emision = some fe)
    (him : ∃ im, decodeNumeric body.importe = some im)
    (hes : ∃ es, decodeBool body.estado = some es)
    (hnu : decodeText body.numero.orNull = some (some n))
    (hde : ∃ de, decodeText body.descripcion.orNull = some de)
    (hf0 : f0 ∈ db.facturas) (hf0n : f0.numero = some n) :
    createFactura uid body file db =
      (.badRequest "Ya existe una factura con ese número.", db) := by
  obtain ⟨ci, hci⟩ := hci
  obtain ⟨fe, hfe⟩ := hfe
  obtain ⟨im, him⟩ := him
  obtain ⟨es, hes⟩ := hes
  obtain ⟨de, hde⟩ := hde
  have hcol : (db.facturas.any (fun f => f.numero = some n)) = true := by
    simp only [List.any_eq_true, decide_eq_true_eq]
    exact ⟨f0, hf0, hf0n⟩
  have har : decodeText (match file with
      | some f => JSVal.str f
      | none => JSVal.null).orNull =
      some (match file with
        | some f => if f = "" then none else some f
        | none => none) := by
    cases file with
    | none => rfl
    | some f =>
        by_cases hf : f = "" <;>
          simp [JSVal.orNull, JSVal.jsOr, JSVal.truthy, hf, decodeText]
  unfold createFactura
  rw [hval]
  simp only [Bool.false_eq_true, if_false]
  unfold createFacturaValidated
  simp only [hci, hfe, him, hes, hnu, hde, har, Option.bind_eq_bind,
    Option.some_bind]
  simp [insertFactura, hcol]

/-- **C3** witness: creating an invoice with number "INV-1" and then
creating a second one with the same number yields the conflict 400 and
leaves the store as it was after the first create. -/
theorem createFactura_duplicate_numero_conflict_witness :
    createFactura 2
        { cliente_id := .num 7, fecha_emision := .str "2024-06-02",
          importe := .num 55, estado := .bool true,
          numero := .str "INV-1", descripcion := .undef } none
        (createFactura 1
          { cliente_id := .num 5, fecha_emision := .str "2024-03-01",
            importe := .num 100, estado := .bool false,
            numero := .str "INV-1", descripcion := .undef } none
          { facturas := [], clientes := [], nextId := 1 }).2 =
      (CreateRes.badRequest "Ya existe una factura con ese número.",
       (createFactura 1
          { cliente_id := .num 5, fecha_emision := .str "2024-03-01",
            importe := .num 100, estado := .bool false,
            numero := .str "INV-1", descripcion := .undef } none
          { facturas := [], clientes := [], nextId := 1 }).2) := by
  exact createFactura_duplicate_numero_conflict 2
    { cliente_id := .num 7, fecha_emision := .str "2024-06-02",
      importe := .num 55, estado := .bool true,
      numero := .str "INV-1", descripcion := .undef } none _ "INV-1"
    { id := 1, usuario_id := 1, cliente_id := some 5,
      fecha_emision := ⟨2024, 3, 1⟩, importe := 100, estado := false,
      numero := some "INV-1", descripcion := none, archivo := none }
    (by decide) ⟨some 7, by decide⟩ ⟨⟨2024, 6, 2⟩, by decide⟩
    ⟨55, by decide⟩ ⟨true, by decide⟩ (by decide) ⟨none, by decide⟩
    (by decide) (by decide)

/-- **C10**: a create request whose `numero` and `descripcion` are the
empty string and whose uploaded file has an empty filename persists
NULL for all three columns; since the uniqueness constraint ignores
NULLs, such a create succeeds against any store — in particular a
second identical create does not hit the conflict path. -/
theorem createFactura_emptyStrings_coercedNull
    (uid : Nat) (body : CreateBody) (db : DB)
    (ci : Option Int) (fe : Fecha) (im : Rat) (es : Bool)
    (hval : (!body.fecha_emision.truthy || !body.importe.truthy ||
             body.estado == JSVal.undef || !body.cliente_id.truthy) = false)
    (hci : decodeIntNullable body.cliente_id = some ci)
    (hfe : decodeDate body.fecha_emision = some fe)
    (him : decodeNumeric body.importe = some im)
    (hes : decodeBool body.estado = some es)
    (hnu : body.numero = .str "") (hde : body.descripcion = .str "") :
    createFactura uid body (some "") db =
      (.created
        { id := db.nextId, usuario_id := uid, cliente_id := ci,
          fecha_emision := fe, importe := im, estado := es,
          numero := none, descripcion := none, archivo := none },
       { db with
          facturas := db.facturas ++
            [{ id := db.nextId, usuario_id := uid, cliente_id := ci,
               fecha_emision := fe, importe := im, estado := es,
               numero := none, descripcion := none, archivo := none }],
          nextId := db.nextId + 1 }) := by
  unfold createFactura
  rw [hval]
  simp only [Bool.false_eq_true, if_false]
  unfold createFacturaValidated
  simp only [hci, hfe, him, hes, hnu, hde, Option.bind_eq_bind,
    Option.some_bind, JSVal.orNull, JSVal.jsOr, JSVal.truthy]
  simp [decodeText, insertFactura]

/-- The create body with empty-string `numero` and `descripcion` used
to witness the NULL coercion. -/
def bodyEmptyStringsW : CreateBody :=
  { cliente_id := .num 5, fecha_emision := .str "2024-03-01",
    importe := .num 100, estado := .bool true,
    numero := .str "", descripcion := .str "" }

/-- The row such a create persists, with the given id. -/
def rowNullW (i : Nat) : Factura :=
  { id := i, usuario_id := 1, cliente_id := some 5,
    fecha_emision := ⟨2024, 3, 1⟩, importe := 100, estado := true,
    numero := none, descripcion := none, archivo := none }

/-- **C10** witness: two consecutive creates with `numero = ""`,
`descripcion = ""` and an empty attachment filename both succeed, both
persisting NULL in all three columns. -/
theorem createFactura_emptyStrings_coercedNull_witness :
    createFactura 1 bodyEmptyStringsW (some "")
        { facturas := [], clientes := [], nextId := 1 } =
      (.created (rowNullW 1),
       { facturas := [rowNullW 1], clientes := [], nextId := 2 }) ∧
    createFactura 1 bodyEmptyStringsW (some "")
        { facturas := [rowNullW 1], clientes := [], nextId := 2 } =
      (.created (rowNullW 2),
       { facturas := [rowNullW 1, rowNullW 2], clientes := [], nextId := 3 }) := by
  constructor
  · exact createFactura_emptyStrings_coercedNull 1 _ _ (some 5) ⟨2024, 3, 1⟩
      100 true (by decide) (by decide) (by decide) (by decide) (by decide)
      rfl rfl
  · exact createFactura_emptyStrings_coercedNull 1 _ _ (some 5) ⟨2024, 3, 1⟩
      100 true (by decide) (by decide) (by decide) (by decide) (by decide)
      rfl rfl

/-- **C5**: for an owned invoice, clearing the attachment answers 400
with no state change when the stored `archivo` is NULL; with an
attachment present, a filesystem failure answers 500 leaving the store
untouched, and only a successful unlink nulls the row's `archivo`. -/
theorem deleteArchivoFactura_cases (uid id : Nat) (fsOk : Bool) (db : DB)
    (f : Factura)
    (hf : db.facturas.find? (fun g => g.id == id && g.usuario_id == uid) = some f) :
    (f.archivo = none →
      deleteArchivoFactura uid id fsOk db = (.badRequest, db)) ∧
    (∀ a, f.archivo = some a → a ≠ "" → fsOk = false →
      deleteArchivoFactura uid id fsOk db = (.serverError, db)) ∧
    (∀ a, f.archivo = some a → a ≠ "" → fsOk = true →
      deleteArchivoFactura uid id fsOk db =
        (.cleared,
         { db with facturas := db.facturas.map (fun g =>
             if g.id == id && g.usuario_id == uid then { g with archivo := none }
             else g) })) := by
  refine ⟨?_, ?_, ?_⟩
  · intro h
    simp [deleteArchivoFactura, hf, h]
  · intro a ha hne hfs
    simp [deleteArchivoFactura, hf, ha, hfs, beq_eq_false_iff_ne.mpr hne]
  · intro a ha hne hfs
    simp [deleteArchivoFactura, hf, ha, hfs, beq_eq_false_iff_ne.mpr hne]

/-- An owned invoice with no attachment, for the C5 witness. -/
def facSinArchivoW : Factura :=
  { id := 1, usuario_id := 1, cliente_id := none,
    fecha_emision := ⟨2024, 1, 1⟩, importe := 10, estado := false,
    numero := none, descripcion := none, archivo := none }

/-- An owned invoice with an attachment, for the C5 witness. -/
def facConArchivoW : Factura :=
  { id := 2, usuario_id := 1, cliente_id := none,
    fecha_emision := ⟨2024, 2, 1⟩, importe := 20, estado := true,
    numero := none, descripcion := none, archivo := some "b.pdf" }

/-- The store holding both, for the C5 witness. -/
def dbClearW : DB :=
  { facturas := [facSinArchivoW, facConArchivoW], clientes := [], nextId := 3 }

/-- **C5** witness: on the two-invoice store, clearing the
attachment-less invoice is a 400 leaving the store unchanged; clearing
the attached one under a failing unlink is a 500 leaving the store
unchanged; under a successful unlink only that row's `archivo` becomes
NULL. -/
theorem deleteArchivoFactura_cases_witness :
    deleteArchivoFactura 1 1 true dbClearW = (.badRequest, dbClearW) ∧
    deleteArchivoFactura 1 2 false dbClearW = (.serverError, dbClearW) ∧
    deleteArchivoFactura 1 2 true dbClearW =
      (.cleared,
       { facturas := [facSinArchivoW, { facConArchivoW with archivo := none }],
         clientes := [], nextId := 3 }) := by
  refine ⟨?_, ?_, ?_⟩
  · exact (deleteArchivoFactura_cases 1 1 true dbClearW facSinArchivoW
      (by decide)).1 rfl
  · exact (deleteArchivoFactura_cases 1 2 false dbClearW facConArchivoW
      (by decide)).2.1 "b.pdf" rfl (by decide) rfl
  · exact (deleteArchivoFactura_cases 1 2 true dbClearW facConArchivoW
      (by decide)).2.2 "b.pdf" rfl (by decide) rfl

/-- **C9** (amended): the yearly summary answers the invalid-year 400
exactly when `parseInt` on the `year` parameter yields `NaN` or `0`;
every other parseable integer — positive or negative — passes
validation and the summary is computed. -/
theorem getResumen_year_validation (uid : Nat) (yearRaw : Option String)
    (db : DB) :
    getResumenFacturasPorYear uid yearRaw db = .invalidYear ↔
      (parseIntQ yearRaw = none ∨ parseIntQ yearRaw = some 0) := by
  unfold getResumenFacturasPorYear
  rcases h : parseIntQ yearRaw with _ | y <;> simp [h]

/-- **C9** counterexample: `"-5"` parses to the non-positive integer
`-5`, yet the summary endpoint does not reject it — refuting "fails if
and only if the parameter is not a parseable positive integer". -/
theorem getResumen_negativeYear_passesValidation :
    parseIntJS "-5" = some (-5) ∧ ((-5 : Int) < 0) ∧
    getResumenFacturasPorYear 1 (some "-5")
        { facturas := [], clientes := [], nextId := 1 } ≠ .invalidYear := by
  refine ⟨by decide, by decide, ?_⟩
  decide

/-- Any invoice in a list response comes from the store and satisfies
the WHERE clause: the ownership test conjoined with the search
disjunction (when a search is active). -/
lemma getFacturas_rows_mem (uid : Nat) (q : ListQuery) (baseUrl : String)
    (db : DB) (fo : FacturaOut)
    (h : fo ∈ (getFacturasByUser uid q baseUrl db).rows) :
    fo.factura ∈ db.facturas ∧
    (fo.factura.usuario_id == uid &&
      ((match q.search with | some s => jsTrim (jsToLower s) | none => "") == "" ||
        matchesSearch
          (removeWS (match q.search with | some s => jsTrim (jsToLower s) | none => ""))
          fo.factura)) = true := by
  simp only [getFacturasByUser] at h
  cases hle : fieldLe (match q.sortField with
      | some s => if s = "" then "fecha_emision" else s
      | none => "fecha_emision") with
  | none =>
      rw [hle] at h
      simp [ListRes.rows] at h
  | some le =>
      rw [hle] at h
      dsimp only at h
      by_cases hc : parseIntOr q.limit 5 < 0 ∨
          (parseIntOr q.page 1 - 1) * parseIntOr q.limit 5 < 0
      · rw [if_pos hc] at h
        simp [ListRes.rows] at h
      · rw [if_neg hc] at h
        simp only [ListRes.rows, List.mem_map] at h
        obtain ⟨f, hf, rfl⟩ := h
        have hf1 : f ∈ List.insertionSort _ (List.filter _ db.facturas) :=
          List.mem_of_mem_drop (List.mem_of_mem_take hf)
        have hf2 := (List.perm_insertionSort _ _).subset hf1
        exact List.mem_filter.mp hf2

/-- **C4**: every invoice in a list response — whatever the page,
limit, sort and search parameters — is owned by the requesting user. -/
theorem getFacturas_rows_owned (uid : Nat) (q : ListQuery) (baseUrl : String)
    (db : DB) (fo : FacturaOut)
    (h : fo ∈ (getFacturasByUser uid q baseUrl db).rows) :
    fo.factura.usuario_id = uid := by
  have hm := (getFacturas_rows_mem uid q baseUrl db fo h).2
  simp only [Bool.and_eq_true, beq_iff_eq] at hm
  exact hm.1

/-- Invoices of two different users, for the list-endpoint witnesses. -/
def dbListW : DB :=
  { facturas := [
      { id := 1, usuario_id := 1, cliente_id := some 5,
        fecha_emision := ⟨2024, 3, 1⟩, importe := 100, estado := false,
        numero := some "INV-1", descripcion := none, archivo := none },
      { id := 2, usuario_id := 2, cliente_id := none,
        fecha_emision := ⟨2024, 4, 2⟩, importe := 50, estado := true,
        numero := some "other", descripcion := none, archivo := some "a.pdf" },
      { id := 3, usuario_id := 1, cliente_id := some 5,
        fecha_emision := ⟨2024, 5, 2⟩, importe := 70, estado := true,
        numero := none, descripcion := some "work stuff", archivo := some "b.pdf" }],
    clientes := [{ id := 5, nombre := "ACME" }],
    nextId := 4 }

/-- A defaulted list query (no parameters supplied). -/
def qDefaultW : ListQuery :=
  { page := none, limit := none, sortField := none, sortOrder := none,
    search := none }

/-- The list query searching for `"  INV-1 "`. -/
def qSearchW : ListQuery :=
  { qDefaultW with search := some "  INV-1 " }

/-- The row of `dbListW` matched by the `"  INV-1 "` search, as the
list endpoint decorates it. -/
def foInv1W : FacturaOut :=
  { factura :=
      { id := 1, usuario_id := 1, cliente_id := some 5,
        fecha_emision := ⟨2024, 3, 1⟩, importe := 100, estado := false,
        numero := some "INV-1", descripcion := none, archivo := none },
    cliente_nombre := some "ACME",
    archivo_url := none }

/-- **C4** witness: a concrete row returned by a defaulted list call
on the two-user store is owned by the requesting user. -/
theorem getFacturas_rows_owned_witness :
    foInv1W.factura.usuario_id = 1 :=
  getFacturas_rows_owned 1 qDefaultW "http://base" dbListW foInv1W (by decide)

/-- **C6**: the `total` of every successful list response counts all of
the user's invoices, with no search predicate applied — even when a
search is active and filters the returned page. -/
theorem getFacturas_total_ignores_search (uid : Nat) (q : ListQuery)
    (baseUrl : String) (db : DB) (out : List FacturaOut) (total : Nat)
    (h : getFacturasByUser uid q baseUrl db = .ok out total) :
    total = (db.facturas.filter (fun f => f.usuario_id == uid)).length := by
  simp only [getFacturasByUser] at h
  cases hle : fieldLe (match q.sortField with
      | some s => if s = "" then "fecha_emision" else s
      | none => "fecha_emision") with
  | none =>
      rw [hle] at h
      simp at h
  | some le =>
      rw [hle] at h
      dsimp only at h
      by_cases hc : parseIntOr q.limit 5 < 0 ∨
          (parseIntOr q.page 1 - 1) * parseIntOr q.limit 5 < 0
      · rw [if_pos hc] at h
        simp at h
      · rw [if_neg hc] at h
        exact (ListRes.ok.inj h).2.symm

/-- **C6** witness: with the `"  INV-1 "` search active the page holds
a single matching invoice, yet `total` is 2 — the user's full invoice
count, exceeding the number of matches. -/
theorem getFacturas_total_ignores_search_witness :
    getFacturasByUser 1 qSearchW "http://base" dbListW =
      ListRes.ok [foInv1W] 2 ∧
    (2 : Nat) = (dbListW.facturas.filter (fun f => f.usuario_id == 1)).length ∧
    List.length [foInv1W] = 1 := by
  have hok : getFacturasByUser 1 qSearchW "http://base" dbListW =
      ListRes.ok [foInv1W] 2 := by decide
  exact ⟨hok,
    getFacturas_total_ignores_search 1 qSearchW "http://base" dbListW
      [foInv1W] 2 hok, rfl⟩

/-- An infix whose characters all survive a filter is an infix of the
filtered list. -/
lemma isInfix_of_filter {α : Type} (q : α → Bool) {p m : List α}
    (h : p <:+: m) (hp : p.filter q = p) : p <:+: m.filter q := by
  obtain ⟨s, t, rfl⟩ := h
  exact ⟨s.filter q, t.filter q, by simp [List.filter_append, hp]⟩

/-- A whitespace-free pattern that occurs in the space-stripped
lower-cased text (the SQL normalization) also occurs in the fully
whitespace-stripped lower-cased text (the spec's normalization). -/
lemma substrB_sqlNorm_to_removeWS (p n : String)
    (hp : ∀ c ∈ p.data, ¬ c.isWhitespace)
    (h : substrB p (sqlNorm n) = true) :
    substrB p (removeWS (jsToLower n)) = true := by
  unfold substrB at h ⊢
  rw [decide_eq_true_eq] at h
  rw [decide_eq_true_eq]
  show p.data <:+: (n.data.map Char.toLower).filter (fun c => !c.isWhitespace)
  have hfix : (n.data.map Char.toLower).filter (fun c => !c.isWhitespace) =
      ((n.data.map Char.toLower).filter (fun c => c != ' ')).filter
        (fun c => !c.isWhitespace) := by
    rw [List.filter_filter]
    refine (List.filter_congr ?_).symm
    intro a _
    cases hws : a.isWhitespace
    · have hne : (a != ' ') = true := by
        rcases instDecidableEqChar a ' ' with he | he
        · simpa using he
        · rw [he] at hws
          exact absurd hws (by decide)
      simp [hne]
    · simp
  rw [hfix]
  refine isInfix_of_filter _ h ?_
  exact List.filter_eq_self.mpr (fun c hc => by simpa using hp c hc)

/-- The pattern built from a search string contains no whitespace. -/
lemma removeWS_no_whitespace (x : String) :
    ∀ c ∈ (removeWS x).data, ¬ c.isWhitespace := by
  intro c hc
  have := List.mem_filter.mp hc
  simpa using this.2

/-- **C7**: with a non-empty search, every invoice in the list response
is owned by the requesting user AND matches the search: the pattern —
the search string lower-cased, trimmed, and stripped of all whitespace
— occurs as a substring of the whitespace-stripped lower-cased invoice
number, or of the equally normalized description, or of the issue date
rendered as `DD/MM/YYYY`. -/
theorem getFacturas_search_predicate (uid : Nat) (q : ListQuery)
    (baseUrl : String) (db : DB) (s : String) (fo : FacturaOut)
    (hs : q.search = some s)
    (hne : jsTrim (jsToLower s) ≠ "")
    (h : fo ∈ (getFacturasByUser uid q baseUrl db).rows) :
    fo.factura.usuario_id = uid ∧
    ((∃ n, fo.factura.numero = some n ∧
        substrB (removeWS (jsTrim (jsToLower s))) (removeWS (jsToLower n)) = true) ∨
     (∃ d, fo.factura.descripcion = some d ∧
        substrB (removeWS (jsTrim (jsToLower s))) (removeWS (jsToLower d)) = true) ∨
     substrB (removeWS (jsTrim (jsToLower s)))
       (fechaDDMMYYYY fo.factura.fecha_emision) = true) := by
  have hm := getFacturas_rows_mem uid q baseUrl db fo h
  simp only [hs] at hm
  obtain ⟨hmem, hcond⟩ := hm
  simp only [Bool.and_eq_true, Bool.or_eq_true, beq_iff_eq] at hcond
  obtain ⟨hown, hsearch⟩ := hcond
  rcases hsearch with hempty | hmatch
  · exact absurd hempty hne
  · refine ⟨hown, ?_⟩
    have hp := removeWS_no_whitespace (jsTrim (jsToLower s))
    unfold matchesSearch at hmatch
    simp only [Bool.or_eq_true] at hmatch
    rcases hmatch with (hnum | hdesc) | hdate
    · cases hn : fo.factura.numero with
      | none => rw [hn] at hnum; simp at hnum
      | some n =>
          rw [hn] at hnum
          exact Or.inl ⟨n, rfl, substrB_sqlNorm_to_removeWS _ _ hp hnum⟩
    · cases hd : fo.factura.descripcion with
      | none => rw [hd] at hdesc; simp at hdesc
      | some d =>
          rw [hd] at hdesc
          exact Or.inr (Or.inl ⟨d, rfl, substrB_sqlNorm_to_removeWS _ _ hp hdesc⟩)
    · exact Or.inr (Or.inr hdate)

/-- **C7** witness: the invoice numbered `"INV-1"` is returned for the
search `"  INV-1 "` and satisfies the normalized number match. -/
theorem getFacturas_search_predicate_witness :
    foInv1W.factura.usuario_id = 1 ∧
    ((∃ n, foInv1W.factura.numero = some n ∧
        substrB (removeWS (jsTrim (jsToLower "  INV-1 ")))
          (removeWS (jsToLower n)) = true) ∨
     (∃ d, foInv1W.factura.descripcion = some d ∧
        substrB (removeWS (jsTrim (jsToLower "  INV-1 ")))
          (removeWS (jsToLower d)) = true) ∨
     substrB (removeWS (jsTrim (jsToLower "  INV-1 ")))
       (fechaDDMMYYYY foInv1W.factura.fecha_emision) = true) :=
  getFacturas_search_predicate 1 qSearchW "http://base" dbListW "  INV-1 "
    foInv1W rfl (by decide) (by decide)

/-- **C8**: every successful yearly summary carries exactly the twelve
month labels "01".."12" in order; a month in which the owner has no
invoice for that year reports all-zero counts and amount; and each
empty group's NULL average (overall, paid, unpaid) is normalized to 0
in the response. -/
theorem getResumen_months_and_null_averages (uid : Nat)
    (yearRaw : Option String) (db : DB) (r : ResumenOut)
    (h : getResumenFacturasPorYear uid yearRaw db = .ok r) :
    r.mensual.map MesRow.mes = mesesList ∧
    (∀ m ∈ r.mensual,
      (∀ f ∈ db.facturas, f.usuario_id = uid →
        (f.fecha_emision.year : Int) = r.year →
        padNum 2 f.fecha_emision.month ≠ m.mes) →
      m.total = 0 ∧ m.pagadas = 0 ∧ m.noPagadas = 0 ∧ m.totalImporte = 0) ∧
    ((∀ f ∈ db.facturas, f.usuario_id = uid →
        (f.fecha_emision.year : Int) = r.year → f.estado = false) →
      r.promedioPagadas = 0) ∧
    ((∀ f ∈ db.facturas, f.usuario_id = uid →
        (f.fecha_emision.year : Int) = r.year → f.estado = true) →
      r.promedioNoPagadas = 0) ∧
    ((∀ f ∈ db.facturas, f.usuario_id = uid →
        (f.fecha_emision.year : Int) ≠ r.year) →
      r.promedioImporte = 0) := by
  simp only [getResumenFacturasPorYear] at h
  cases hy : parseIntQ yearRaw with
  | none =>
      rw [hy] at h
      simp at h
  | some y =>
      rw [hy] at h
      dsimp only at h
      by_cases h0 : y = 0
      · rw [if_pos h0] at h
        simp at h
      · rw [if_neg h0] at h
        have hr := ResumenRes.ok.inj h
        subst hr
        refine ⟨?_, ?_, ?_, ?_, ?_⟩
        · rfl
        · intro m hm hnone
          simp only [List.mem_map] at hm
          obtain ⟨mes, hmes, rfl⟩ := hm
          have hsub : (db.facturas.filter (fun f =>
              f.usuario_id == uid && ((f.fecha_emision.year : Int) == y))).filter
              (fun f => padNum 2 f.fecha_emision.month == mes) = [] := by
            rw [List.filter_eq_nil_iff]
            intro f hf
            obtain ⟨hfm, hcond⟩ := List.mem_filter.mp hf
            simp only [Bool.and_eq_true, beq_iff_eq] at hcond
            have := hnone f hfm hcond.1 hcond.2
            simpa using this
          refine ⟨?_, ?_, ?_, ?_⟩ <;> simp [hsub]
        · intro hnp
          have hpag : (db.facturas.filter (fun f =>
              f.usuario_id == uid && ((f.fecha_emision.year : Int) == y))).filter
              (fun f => f.estado) = [] := by
            rw [List.filter_eq_nil_iff]
            intro f hf
            obtain ⟨hfm, hcond⟩ := List.mem_filter.mp hf
            simp only [Bool.and_eq_true, beq_iff_eq] at hcond
            simp [hnp f hfm hcond.1 hcond.2]
          simp [hpag, avgRound2]
        · intro hnp
          have hnop : (db.facturas.filter (fun f =>
              f.usuario_id == uid && ((f.fecha_emision.year : Int) == y))).filter
              (fun f => !f.estado) = [] := by
            rw [List.filter_eq_nil_iff]
            intro f hf
            obtain ⟨hfm, hcond⟩ := List.mem_filter.mp hf
            simp only [Bool.and_eq_true, beq_iff_eq] at hcond
            simp [hnp f hfm hcond.1 hcond.2]
          simp [hnop, avgRound2]
        · intro hnone
          have hrows : db.facturas.filter (fun f =>
              f.usuario_id == uid && ((f.fecha_emision.year : Int) == y)) = [] := by
            rw [List.filter_eq_nil_iff]
            intro f hf
            simp only [Bool.and_eq_true, beq_iff_eq, not_and]
            intro hu
            exact hnone f hf hu
          simp [hrows, avgRound2]

/-- The summary the endpoint produces for a user with no invoices:
all-zero aggregates and twelve zero-filled months. -/
def resumenEmptyW : ResumenOut :=
  { year := 2024, totalFacturas := 0, pagadas := 0, noPagadas := 0,
    totalImporte := 0, importePagadas := 0, importeNoPagadas := 0,
    promedioImporte := 0, promedioPagadas := 0, promedioNoPagadas := 0,
    mensual := mesesList.map (fun mes =>
      { mes := mes, total := 0, pagadas := 0, noPagadas := 0,
        totalImporte := 0 }) }

/-- **C8** witness: on an empty store the 2024 summary has the twelve
zero-filled months and all three NULL averages normalized to 0. -/
theorem getResumen_months_and_null_averages_witness :
    resumenEmptyW.mensual.map MesRow.mes = mesesList ∧
    resumenEmptyW.promedioPagadas = 0 ∧
    resumenEmptyW.promedioNoPagadas = 0 ∧
    resumenEmptyW.promedioImporte = 0 := by
  have hok : getResumenFacturasPorYear 1 (some "2024")
      { facturas := [], clientes := [], nextId := 1 } = .ok resumenEmptyW := by
    decide
  have H := getResumen_months_and_null_averages 1 (some "2024")
    { facturas := [], clientes := [], nextId := 1 } resumenEmptyW hok
  exact ⟨H.1, H.2.2.1 (by decide), H.2.2.2.1 (by decide),
    H.2.2.2.2 (by decide)⟩

end Autoflow
